import Mathlib

/-!
Formal model of the EXIF extraction MCP server
(`src/exif_extractor/server.py` of yjqian19/personal-mcp).

The report formatter `_format_exif_info`, the tool `extract_exif` and
their helpers are embedded as pure Lean functions, translated line by
line from the Python source.  Python's dynamically typed tag values are
modelled by the closed union `TagValue`; a Python exception escaping a
function is modelled as the `Except.error` case carrying the message.
The blob-level tag decoder lives in the external `piexif` dependency
(the repository only calls it), so `decode` is modelled from the
specification.
-/

namespace ExifMCP

/-- A decoded EXIF tag value.  `text` models a byte string that decodes
as UTF-8 (stored already decoded); `raw` models uninterpreted or
non-UTF-8 bytes; `rat` keeps the undivided (numerator, denominator)
pair exactly as stored; `uintList` models the Python tuple produced for
multi-count integer tags. -/
inductive TagValue where
  | text (s : String)
  | uint (n : Nat)
  | uintList (l : List Nat)
  | rat (num den : Int)
  | raw (bs : List Nat)
deriving DecidableEq

/-- An EXIF directory: a finite map from an integer tag id to a value
(the Python side is a dict keyed by `piexif` tag constants). -/
abbrev Directory := List (Nat × TagValue)

/-- The decode result (`piexif.load`-shaped dict): directories keyed by
name.  `none` models the key being absent from the Python dict, so a
dictionary whose three fields are `none` is the falsy empty dict. -/
structure ExifDictionary where
  zeroth : Option Directory
  exif : Option Directory
  gps : Option Directory
deriving DecidableEq

/-- Python truthiness test `not exif_data` on the decode result. -/
def ExifDictionary.isEmpty (d : ExifDictionary) : Bool :=
  d.zeroth.isNone && d.exif.isNone && d.gps.isNone

/-- `ExifConfig` pydantic model from the source (field order preserved). -/
structure ExifConfig where
  timeout : Nat
  max_file_size : Nat
  include_technical : Bool
  include_location : Bool
deriving DecidableEq

/-- The image attributes `_format_exif_info` reads from the PIL image:
`image.size[0]`, `image.size[1]`, `image.mode`, `image.format`. -/
structure ImageDescriptor where
  width : Nat
  height : Nat
  mode : String
  format : String
deriving DecidableEq

/-- `piexif.ImageIFD.Make` -/
def ImageIFD.Make : Nat := 271

/-- `piexif.ImageIFD.Model` -/
def ImageIFD.Model : Nat := 272

/-- `piexif.ImageIFD.DateTime` -/
def ImageIFD.DateTime : Nat := 306

/-- `piexif.ImageIFD.Software` -/
def ImageIFD.Software : Nat := 305

/-- `piexif.ImageIFD.ExifTag` (pointer to the Exif sub-IFD) -/
def ImageIFD.ExifTag : Nat := 34665

/-- `piexif.ImageIFD.GPSTag` (pointer to the GPS sub-IFD) -/
def ImageIFD.GPSTag : Nat := 34853

/-- `piexif.ExifIFD.ExposureTime` -/
def ExifIFD.ExposureTime : Nat := 33434

/-- `piexif.ExifIFD.FNumber` -/
def ExifIFD.FNumber : Nat := 33437

/-- `piexif.ExifIFD.ISOSpeedRatings` -/
def ExifIFD.ISOSpeedRatings : Nat := 34855

/-- `piexif.ExifIFD.Flash` -/
def ExifIFD.Flash : Nat := 37385

/-- `piexif.ExifIFD.FocalLength` -/
def ExifIFD.FocalLength : Nat := 37386

/-- `piexif.ExifIFD.WhiteBalance` -/
def ExifIFD.WhiteBalance : Nat := 41987

/-- A single-quote character, kept out of string literals. -/
def squote : String := String.mk [Char.ofNat 39]

/-- Lower-case hexadecimal digit. -/
def hexDigit (n : Nat) : Char :=
  if n < 10 then Char.ofNat (48 + n) else Char.ofNat (87 + n)

/-- One byte of Python's `repr` of a bytes object: printable ASCII kept
verbatim, backslash and the quote escaped, everything else `\xNN`. -/
def byteRepr (b : Nat) : String :=
  if b = 92 then "\\\\"
  else if b = 39 then "\\" ++ squote
  else if 32 ≤ b ∧ b ≤ 126 then String.mk [Char.ofNat b]
  else String.mk ['\\', 'x', hexDigit (b / 16), hexDigit (b % 16)]

/-- Python `str()` of a tag value as interpolated by the f-strings in
`_format_exif_info` (ints print as digits, tuples as `(a, b)`, byte
strings with the `b` quote form). -/
def pyStr : TagValue → String
  | .uint n => toString n
  | .uintList [] => "()"
  | .uintList [a] => "(" ++ toString a ++ ",)"
  | .uintList l => "(" ++ String.intercalate ", " (l.map toString) ++ ")"
  | .rat n d => "(" ++ toString n ++ ", " ++ toString d ++ ")"
  | .text s => "b" ++ squote ++ s ++ squote
  | .raw bs => "b" ++ squote ++ String.join (bs.map byteRepr) ++ squote

/-- `"=" * 50` from line 80 of the source. -/
def eq50 : String := String.mk (List.replicate 50 '=')

/-- `"-" * 30` from lines 105, 151 of the source. -/
def dash30 : String := String.mk (List.replicate 30 '-')

/-- Round `p / q` (with `q > 0`) to the nearest integer, ties to even:
the rounding Python applies when formatting a float with `:.1f`. -/
def roundHE (p q : Int) : Int :=
  let f := Int.fdiv p q
  let r2 := 2 * (p - f * q)
  if r2 < q then f else if q < r2 then f + 1 else if f % 2 = 0 then f else f + 1

/-- Python `f"{x:.1f}"` for `x = n / d`, modelled in exact rational
arithmetic (the source divides as floats first; the double-precision
detour is not modelled, which is exact at every value the claims use). -/
def fmt1 (n d : Int) : String :=
  if d = 0 then ""
  else
    let q := if d < 0 then -d else d
    let p := if d < 0 then -(10 * n) else 10 * n
    let m := roundHE p q
    (if m < 0 then "-" else "")
      ++ toString (m.natAbs / 10) ++ "." ++ toString (m.natAbs % 10)

/-- `basic_info[tag].decode('utf-8')` wrapped in its report line: only a
byte string decodes; any other runtime type faults (`int`/`tuple` have
no `.decode`, non-UTF-8 bytes raise on decoding). -/
def decodedLine (pref : String) (v : TagValue) : Except String String :=
  match v with
  | .text s => .ok (pref ++ s ++ "\n")
  | _ => .error "object has no attribute decode"

/-- Source lines 108-111: `f_number[0] / f_number[1]` when the value is
a tuple (unguarded, so a zero denominator raises `ZeroDivisionError`),
the raw value otherwise, then formatted with `:.1f` (faulting on
non-numeric values). -/
def apertureLine (v : TagValue) : Except String String :=
  match v with
  | .rat n d =>
      if d = 0 then .error "division by zero"
      else .ok ("🔍 Aperture: f/" ++ fmt1 n d ++ "\n")
  | .uintList (a :: b :: _) =>
      if b = 0 then .error "division by zero"
      else .ok ("🔍 Aperture: f/" ++ fmt1 (Int.ofNat a) (Int.ofNat b) ++ "\n")
  | .uintList _ => .error "tuple index out of range"
  | .uint k => .ok ("🔍 Aperture: f/" ++ fmt1 (Int.ofNat k) 1 ++ "\n")
  | .text _ => .error "unsupported format string passed to bytes"
  | .raw _ => .error "unsupported format string passed to bytes"

/-- Source lines 114-120: a tuple renders `exposure[0]/exposure[1]`
followed by `s` (no zero-denominator check and no reduction), anything
else renders `str(exposure)` followed by `s`. -/
def shutterLine (v : TagValue) : Except String String :=
  match v with
  | .rat n d => .ok ("⏱️ Shutter Speed: " ++ toString n ++ "/" ++ toString d ++ "s\n")
  | .uintList (a :: b :: _) => .ok ("⏱️ Shutter Speed: " ++ toString a ++ "/" ++ toString b ++ "s\n")
  | .uintList _ => .error "tuple index out of range"
  | v => .ok ("⏱️ Shutter Speed: " ++ pyStr v ++ "s\n")

/-- Source lines 123-125: the ISO value is interpolated as-is. -/
def isoLine (v : TagValue) : String := "📊 ISO: " ++ pyStr v ++ "\n"

/-- Source lines 128-134: same shape as the shutter line, unit `mm`. -/
def focalLine (v : TagValue) : Except String String :=
  match v with
  | .rat n d => .ok ("🔭 Focal Length: " ++ toString n ++ "/" ++ toString d ++ "mm\n")
  | .uintList (a :: b :: _) => .ok ("🔭 Focal Length: " ++ toString a ++ "/" ++ toString b ++ "mm\n")
  | .uintList _ => .error "tuple index out of range"
  | v => .ok ("🔭 Focal Length: " ++ pyStr v ++ "mm\n")

/-- Source lines 137-140: `"On" if flash & 0x01 else "Off"`; the bitwise
`&` only exists on integers, other runtime types raise `TypeError`. -/
def flashLine (v : TagValue) : Except String String :=
  match v with
  | .uint n => .ok ("💡 Flash: " ++ (if (n &&& 1) != 0 then "On" else "Off") ++ "\n")
  | _ => .error "unsupported operand type for bitand"

/-- Source lines 143-146: `"Auto" if wb == 0 else "Manual"`; in Python
only the integer `0` compares equal to `0`. -/
def wbLine (v : TagValue) : String :=
  "🎨 White Balance: " ++ (match v with | .uint 0 => "Auto" | _ => "Manual") ++ "\n"

/-- Look a tag up in a directory and render it with `f`; an absent tag
contributes the empty string (its line is omitted). -/
def optTag (dir : Directory) (tag : Nat) (f : TagValue → Except String String) :
    Except String String :=
  match dir.lookup tag with
  | none => .ok ""
  | some v => f v

/-- Camera/basic block, source lines 83-99 (Make, Model, DateTime,
Software, in this order, each line only if the tag is present). -/
def basicBody (dir : Directory) : Except String String := do
  let l1 ← optTag dir ImageIFD.Make (decodedLine "📷 Camera Make: ")
  let l2 ← optTag dir ImageIFD.Model (decodedLine "📱 Camera Model: ")
  let l3 ← optTag dir ImageIFD.DateTime (decodedLine "📅 Date Taken: ")
  let l4 ← optTag dir ImageIFD.Software (decodedLine "💻 Software: ")
  pure (l1 ++ l2 ++ l3 ++ l4)

/-- Technical block body, source lines 103-146: the header and the
dashed separator are appended unconditionally once the block is
entered, then the six optional tag lines in source order. -/
def techBody (dir : Directory) : Except String String := do
  let l1 ← optTag dir ExifIFD.FNumber apertureLine
  let l2 ← optTag dir ExifIFD.ExposureTime shutterLine
  let l3 := match dir.lookup ExifIFD.ISOSpeedRatings with
    | none => ""
    | some v => isoLine v
  let l4 ← optTag dir ExifIFD.FocalLength focalLine
  let l5 ← optTag dir ExifIFD.Flash flashLine
  let l6 := match dir.lookup ExifIFD.WhiteBalance with
    | none => ""
    | some v => wbLine v
  pure ("\n🔧 Technical Parameters:\n" ++ dash30 ++ "\n" ++ l1 ++ l2 ++ l3 ++ l4 ++ l5 ++ l6)

/-- Image information block, source lines 149-154 (only when an image
object was passed). -/
def imageSection : Option ImageDescriptor → String
  | none => ""
  | some img =>
      "\n📐 Image Information:\n" ++ dash30 ++ "\n"
        ++ "🖼️ Dimensions: " ++ toString img.width ++ " × " ++ toString img.height ++ " pixels\n"
        ++ "🎨 Color Mode: " ++ img.mode ++ "\n"
        ++ "📁 Format: " ++ img.format ++ "\n"

/-- `_format_exif_info` (source lines 74-156).  A raised exception is
the `Except.error` case; a returned report is `Except.ok`. -/
def _format_exif_info (exif_data : ExifDictionary) (config : ExifConfig)
    (image : Option ImageDescriptor) : Except String String :=
  if exif_data.isEmpty then .ok "❌ No EXIF information found"
  else do
    let basic ← match exif_data.zeroth with
      | none => pure ""
      | some dir => basicBody dir
    let tech ← if config.include_technical then
        match exif_data.exif with
        | none => pure ""
        | some dir => techBody dir
      else pure ""
    pure ("📸 Image EXIF Information:\n" ++ eq50 ++ "\n\n" ++ basic ++ tech ++ imageSection image)

/-- The text of an `Except.ok` report, the empty string on error. -/
def okText : Except String String → String
  | .ok s => s
  | .error _ => ""

/-- `leadsL pat text`: `pat` is an initial run of `text`. -/
def leadsL : List Char → List Char → Bool
  | [], _ => true
  | _ :: _, [] => false
  | p :: ps, t :: ts => p == t && leadsL ps ts

/-- `pat` occurs contiguously somewhere in the text. -/
def occursL (pat : List Char) : List Char → Bool
  | [] => leadsL pat []
  | t :: ts => leadsL pat (t :: ts) || occursL pat ts

/-- Substring test on strings (the pattern occurs in `s`). -/
def hasSub (s pat : String) : Bool := occursL pat.data s.data

/-- String prefix test (models Python `str.startswith`). -/
def strLeads (s pat : String) : Bool := leadsL pat.data s.data

/-- One byte of the blob (out-of-range reads yield `none`). -/
def readByte (blob : List Nat) (off : Nat) : Option Nat := blob.get? off

/-- A 16-bit word at `off` in the declared byte order (`le` little). -/
def readU16 (le : Bool) (blob : List Nat) (off : Nat) : Option Nat :=
  match blob.get? off, blob.get? (off + 1) with
  | some a, some b => some (if le then a + 256 * b else 256 * a + b)
  | _, _ => none

/-- A 32-bit word at `off` in the declared byte order. -/
def readU32 (le : Bool) (blob : List Nat) (off : Nat) : Option Nat :=
  match readU16 le blob off, readU16 le blob (off + 2) with
  | some x, some y => some (if le then x + 65536 * y else 65536 * x + y)
  | _, _ => none

/-- Reinterpret a 32-bit word as a signed integer. -/
def toSigned32 (n : Nat) : Int :=
  if n < 2 ^ 31 then (n : Int) else (n : Int) - 2 ^ 32

/-- Byte size of one element of a TIFF type code (byte, ASCII, short,
long, rational, undefined, signed rational); unknown codes are `none`. -/
def typeSize : Nat → Option Nat
  | 1 => some 1
  | 2 => some 1
  | 3 => some 2
  | 4 => some 4
  | 5 => some 8
  | 7 => some 1
  | 10 => some 8
  | _ => none

/-- `cnt` bytes starting at `off`, bounded by the blob length. -/
def readBytes (blob : List Nat) (off cnt : Nat) : Option (List Nat) :=
  if off + cnt ≤ blob.length then some ((blob.drop off).take cnt) else none

/-- `cnt` fixed-size words read with `rd` at stride `step` from `base`. -/
def readMany (rd : Nat → Option Nat) (base step cnt : Nat) : Option (List Nat) :=
  (List.range cnt).mapM fun i => rd (base + step * i)

/-- Strip the trailing null terminators of an ASCII value. -/
def dropTrailingZeros (bs : List Nat) : List Nat :=
  (bs.reverse.dropWhile (· == 0)).reverse

/-- Decode an ASCII byte run, trailing nulls stripped. -/
def asciiOf (bs : List Nat) : String :=
  String.mk ((dropTrailingZeros bs).map fun b => Char.ofNat b)

/-- A count-1 integer value is a scalar, larger counts are a list. -/
def mkUInt : List Nat → TagValue
  | [n] => .uint n
  | l => .uintList l

/-- Modelled from the spec: value decoding per TIFF type code (spec
§4.1 steps 2, 4, 5); the concrete decoder is the external `piexif`
library, whose source is not part of this repository. -/
def decodeValue (le : Bool) (blob : List Nat) (ty cnt valOff : Nat) : Option TagValue :=
  match ty with
  | 1 => (readBytes blob valOff cnt).map mkUInt
  | 2 => (readBytes blob valOff cnt).map fun bs => .text (asciiOf bs)
  | 3 => (readMany (readU16 le blob) valOff 2 cnt).map mkUInt
  | 4 => (readMany (readU32 le blob) valOff 4 cnt).map mkUInt
  | 5 =>
      if cnt = 1 then
        match readU32 le blob valOff, readU32 le blob (valOff + 4) with
        | some n, some d => some (.rat (Int.ofNat n) (Int.ofNat d))
        | _, _ => none
      else none
  | 10 =>
      if cnt = 1 then
        match readU32 le blob valOff, readU32 le blob (valOff + 4) with
        | some n, some d => some (.rat (toSigned32 n) (toSigned32 d))
        | _, _ => none
      else none
  | 7 => (readBytes blob valOff cnt).map fun bs => .raw bs
  | _ => none

/-- Modelled from the spec: one 12-byte directory entry (tag id, type
code, count, inline value or offset; spec §4.1 step 2).  An entry whose
declared size exceeds the blob, or whose reads fall out of range, is
skipped (`none`), not fatal. -/
def parseEntry (le : Bool) (blob : List Nat) (off : Nat) : Option (Nat × TagValue) :=
  match readU16 le blob off, readU16 le blob (off + 2), readU32 le blob (off + 4) with
  | some tag, some ty, some cnt =>
      match typeSize ty with
      | none => none
      | some sz =>
          if sz * cnt > blob.length then none
          else
            let valOff? := if sz * cnt ≤ 4 then some (off + 8) else readU32 le blob (off + 8)
            match valOff? with
            | none => none
            | some valOff => (decodeValue le blob ty cnt valOff).map fun v => (tag, v)
  | _, _, _ => none

/-- Modelled from the spec: one IFD at `off` (entry count followed by
12-byte entries); entries that fail to decode are skipped and their
siblings kept (spec §4.1, §7 entry-level malformation). -/
def parseIFD (le : Bool) (blob : List Nat) (off : Nat) : Directory :=
  match readU16 le blob off with
  | none => []
  | some cnt =>
      (List.range cnt).foldr
        (fun i acc =>
          match parseEntry le blob (off + 2 + 12 * i) with
          | none => acc
          | some e => e :: acc) []

/-- The byte-order marker: `II` little endian, `MM` big endian. -/
def byteOrderOf (blob : List Nat) : Option Bool :=
  match blob.get? 0, blob.get? 1 with
  | some 73, some 73 => some true
  | some 77, some 77 => some false
  | _, _ => none

/-- Modelled from the spec: minimal header validation (byte-order
marker, structure version 42, in-range offset to the first directory;
spec §4.1 step 1). -/
def validHeader (blob : List Nat) : Bool :=
  match byteOrderOf blob with
  | none => false
  | some le =>
      match readU16 le blob 2, readU32 le blob 4 with
      | some 42, some off => decide (8 ≤ off) && decide (off + 2 ≤ blob.length)
      | _, _ => false

/-- Modelled from the spec: `decode(rawBlob) -> ExifDictionary` (spec
§4.1) — the ExifTagDecoder component, which the repository delegates to
the external `piexif` library (not under src/).  Header validation
failure yields the empty dictionary; the `Image` directory is read at
the header-declared offset and the `Exif` / `GPS` sub-directories are
reached through their pointer tags. -/
def decode (blob : List Nat) : ExifDictionary :=
  if validHeader blob then
    match byteOrderOf blob with
    | none => ⟨none, none, none⟩
    | some le =>
        let off0 := (readU32 le blob 4).getD 0
        let img := parseIFD le blob off0
        let exifDir := match img.lookup ImageIFD.ExifTag with
          | some (.uint p) => some (parseIFD le blob p)
          | _ => none
        let gpsDir := match img.lookup ImageIFD.GPSTag with
          | some (.uint p) => some (parseIFD le blob p)
          | _ => none
        ⟨some img, exifDir, gpsDir⟩
  else ⟨none, none, none⟩

/-- A Python exception reaching `extract_exif`'s handlers: the first
handler catches `ValueError`, the second every other `Exception`. -/
inductive PyExn where
  | valueError (msg : String)
  | other (msg : String)
deriving DecidableEq

/-- Mapping of a formatter outcome into the tool body: the formatter's
faults (`ZeroDivisionError`, `TypeError`, ...) are not `ValueError`s. -/
def ofFmt : Except String String → Except PyExn String
  | .ok s => .ok s
  | .error m => .error (.other m)

/-- `urlparse(url).netloc` for the inputs the tool forwards: the text
after the scheme separator up to the first `/`, `?` or `#`. -/
def netlocOf (url : String) : String :=
  let cs := url.data
  let rest :=
    if leadsL "https://".data cs then cs.drop 8
    else if leadsL "http://".data cs then cs.drop 7
    else []
  String.mk (rest.takeWhile fun c => !(c == '/' || c == '?' || c == '#'))

/-- The body of `extract_exif`'s `try` block (source lines 163-185).
The surrounding system's effects are passed in as outcomes: `urlImage`
for `_get_image_from_url`, `b64Image` for `_get_image_from_base64`,
`b64Len` for the re-decoded base64 payload length of line 179, and
`pilExif` for `_extract_exif_from_pil` on the obtained image. -/
def extract_exif_body (image_input : String) (config : ExifConfig)
    (urlImage : Except PyExn ImageDescriptor)
    (b64Image : Except PyExn ImageDescriptor)
    (b64Len : Except PyExn Nat)
    (pilExif : ImageDescriptor → Except PyExn ExifDictionary) :
    Except PyExn String :=
  if strLeads image_input "http://" || strLeads image_input "https://" then
    if (netlocOf image_input).data.isEmpty then .ok "❌ Invalid image URL"
    else do
      let image ← urlImage
      let ed ← pilExif image
      ofFmt (_format_exif_info ed config (some image))
  else do
    let image ← b64Image
    let n ← b64Len
    if n > config.max_file_size then
      .ok ("❌ File too large, exceeds " ++ toString (config.max_file_size / (1024 * 1024)) ++ "MB limit")
    else do
      let ed ← pilExif image
      ofFmt (_format_exif_info ed config (some image))

/-- The two `except` clauses of `extract_exif` (source lines 187-190). -/
def handleExc : Except PyExn String → String
  | .ok s => s
  | .error (.valueError m) => "❌ Error: " ++ m
  | .error (.other m) => "❌ Processing failed: " ++ m

/-- The `extract_exif` tool (source lines 158-190): the `try` body with
both exception handlers around it. -/
def extract_exif (image_input : String) (config : ExifConfig)
    (urlImage : Except PyExn ImageDescriptor)
    (b64Image : Except PyExn ImageDescriptor)
    (b64Len : Except PyExn Nat)
    (pilExif : ImageDescriptor → Except PyExn ExifDictionary) : String :=
  handleExc (extract_exif_body image_input config urlImage b64Image b64Len pilExif)

/-- Claim C1: the claim says a zero-denominator `FNumber` rational is
treated as absent and never causes a divide-by-zero fault.  The code
divides `f_number[0] / f_number[1]` unguarded (source line 110), so on
`FNumber = (28, 0)` the formatter raises `ZeroDivisionError` instead of
omitting the aperture line: the code contradicts the spec. -/
theorem c1_zero_denominator_divide_fault :
    _format_exif_info ⟨none, some [(ExifIFD.FNumber, TagValue.rat 28 0)], none⟩
      ⟨30, 52428800, true, false⟩ none = Except.error "division by zero" := by
  rfl

/-- Claim C2: the claim says `format` never fails on any input, with
malformed tag data rendered as an omitted line.  On a dictionary whose
`Exif` directory holds `FNumber = (1, 0)` the formatter raises
`ZeroDivisionError` (source line 110), so `format` is not total: the
code contradicts the spec. -/
theorem c2_format_not_total :
    _format_exif_info
      ⟨some [(ImageIFD.Make, TagValue.text "Acme")],
       some [(ExifIFD.FNumber, TagValue.rat 1 0)], none⟩
      ⟨30, 52428800, true, false⟩ (some ⟨1920, 1080, "RGB", "JPEG"⟩)
      = Except.error "division by zero" := by
  rfl

/-- Claim C3, counterexample: on a dictionary with no directories the
formatter returns the fixed text `❌ No EXIF information found` (source
line 77), which is not the claimed sentinel `no EXIF information
found`. -/
theorem c3_sentinel_text_counterexample :
    _format_exif_info ⟨none, none, none⟩ ⟨30, 52428800, true, false⟩ none
      = Except.ok "❌ No EXIF information found"
    ∧ "❌ No EXIF information found" ≠ "no EXIF information found" :=
  ⟨rfl, by decide⟩

/-- Claim C3, amended: for every configuration and image descriptor,
`format` on a dictionary with no directories returns exactly the fixed
sentinel `❌ No EXIF information found` and nothing else (no camera,
technical, location, or image-descriptor section). -/
theorem c3_empty_dict_sentinel :
    ∀ (config : ExifConfig) (image : Option ImageDescriptor),
      _format_exif_info ⟨none, none, none⟩ config image
        = Except.ok "❌ No EXIF information found" := by
  intro config image
  rfl

/-- Claim C4 (spec-modelled decoder): for every byte blob whose minimal
header fails validation, `decode` returns the empty `ExifDictionary`
rather than propagating an exception — `decode` is a total function
into `ExifDictionary`. -/
theorem c4_decode_bad_header_empty :
    ∀ blob : List Nat, validHeader blob = false → decode blob = ⟨none, none, none⟩ := by
  intro blob h
  simp [decode, h]

/-- Witness for C4 at a concrete malformed blob. -/
theorem c4_decode_bad_header_empty_witness :
    validHeader [0, 1, 2, 3] = false ∧ decode [0, 1, 2, 3] = ⟨none, none, none⟩ :=
  ⟨rfl, c4_decode_bad_header_empty [0, 1, 2, 3] rfl⟩

/-- Claim C5: on the spec's P3 dictionary — an `Exif` directory with
`FNumber = (28, 10)` — `format` with `includeTechnical = true` yields a
report containing `f/2.8`, and with `includeTechnical = false` the
technical block is entirely absent (the report is exactly the fixed
header with no further section). -/
theorem c5_technical_gate :
    hasSub
      (okText (_format_exif_info ⟨none, some [(ExifIFD.FNumber, TagValue.rat 28 10)], none⟩
        ⟨30, 52428800, true, false⟩ none)) "f/2.8" = true
    ∧ _format_exif_info ⟨none, some [(ExifIFD.FNumber, TagValue.rat 28 10)], none⟩
        ⟨30, 52428800, false, false⟩ none
      = Except.ok ("📸 Image EXIF Information:\n" ++ eq50 ++ "\n\n") := by
  constructor
  · rfl
  · rfl

/-- Claim C6: for every integer Flash value the rendered line is `On`
exactly when bit 0 is set and `Off` exactly when it is clear, the line
depends only on bit 0, and in particular `Flash = 25` renders `On`. -/
theorem c6_flash_bit0 :
    ∀ v : Nat,
      (flashLine (TagValue.uint v) = Except.ok "💡 Flash: On\n" ↔ v % 2 = 1)
      ∧ (flashLine (TagValue.uint v) = Except.ok "💡 Flash: Off\n" ↔ v % 2 = 0)
      ∧ flashLine (TagValue.uint v) = flashLine (TagValue.uint (v % 2))
      ∧ flashLine (TagValue.uint 25) = Except.ok "💡 Flash: On\n" := by
  intro v
  have hb : v &&& 1 = v % 2 := Nat.and_one_is_mod v
  rcases Nat.mod_two_eq_zero_or_one v with h | h
  · have hz : v &&& 1 = 0 := by rw [hb, h]
    have hfl : flashLine (TagValue.uint v) = Except.ok "💡 Flash: Off\n" := by
      simp only [flashLine, hz]
      rfl
    refine ⟨?_, ?_, ?_, rfl⟩
    · rw [hfl, h]
      simp
    · rw [hfl, h]
      simp
    · rw [hfl, h]
      rfl
  · have hz : v &&& 1 = 1 := by rw [hb, h]
    have hfl : flashLine (TagValue.uint v) = Except.ok "💡 Flash: On\n" := by
      simp only [flashLine, hz]
      rfl
    refine ⟨?_, ?_, ?_, rfl⟩
    · rw [hfl, h]
      simp
    · rw [hfl, h]
      simp
    · rw [hfl, h]
      rfl

/-- Claim C7: a rational `ExposureTime` `(n, d)` with `d ≠ 0` renders
as the unreduced fraction `n/d` followed by `s`, and a bare integer `k`
renders as `k` followed by `s`. -/
theorem c7_shutter_format :
    (∀ n d : Int, d ≠ 0 →
        shutterLine (TagValue.rat n d)
          = Except.ok ("⏱️ Shutter Speed: " ++ toString n ++ "/" ++ toString d ++ "s\n"))
    ∧ (∀ k : Nat,
        shutterLine (TagValue.uint k)
          = Except.ok ("⏱️ Shutter Speed: " ++ toString k ++ "s\n")) := by
  constructor
  · intro n d _
    rfl
  · intro k
    rfl

/-- Witness for C7 at the spec's inputs: `(1, 200)` renders `1/200s`,
the bare integer `2` renders `2s`. -/
theorem c7_shutter_format_witness :
    (200 : Int) ≠ 0
    ∧ shutterLine (TagValue.rat 1 200) = Except.ok "⏱️ Shutter Speed: 1/200s\n"
    ∧ shutterLine (TagValue.uint 2) = Except.ok "⏱️ Shutter Speed: 2s\n" :=
  ⟨by decide,
   (c7_shutter_format.1 1 200 (by decide)).trans (by rfl),
   (c7_shutter_format.2 2).trans (by rfl)⟩

/-- Claim C8, counterexample: the claim says a report never shows an
empty technical header, but when the `Exif` directory is present with
none of the six technical tags the code still appends the header and
separator (source lines 102-105): the report for an empty `Exif`
directory contains `🔧 Technical Parameters:`. -/
theorem c8_empty_header_counterexample :
    hasSub
      (okText (_format_exif_info ⟨none, some [], none⟩ ⟨30, 52428800, true, false⟩ none))
      "🔧 Technical Parameters:" = true := by
  rfl

/-- Claim C8, amended: when `includeTechnical` is true and an `Exif`
directory is present but contains none of the six technical tags, the
technical block consists of exactly the header and dashed separator
with no tag line beneath them (the header is not suppressed). -/
theorem c8_tech_header_unconditional :
    ∀ dir : Directory,
      dir.lookup ExifIFD.FNumber = none →
      dir.lookup ExifIFD.ExposureTime = none →
      dir.lookup ExifIFD.ISOSpeedRatings = none →
      dir.lookup ExifIFD.FocalLength = none →
      dir.lookup ExifIFD.Flash = none →
      dir.lookup ExifIFD.WhiteBalance = none →
      techBody dir = Except.ok ("\n🔧 Technical Parameters:\n" ++ dash30 ++ "\n") := by
  intro dir h1 h2 h3 h4 h5 h6
  simp only [techBody, optTag, h1, h2, h3, h4, h5, h6]
  rfl

/-- Witness for C8 at the empty directory. -/
theorem c8_tech_header_unconditional_witness :
    ([] : Directory).lookup ExifIFD.FNumber = none
    ∧ techBody [] = Except.ok ("\n🔧 Technical Parameters:\n" ++ dash30 ++ "\n") :=
  ⟨rfl, c8_tech_header_unconditional [] rfl rfl rfl rfl rfl rfl⟩

/-- Claim C9: the report does not depend on `includeLocation` — the
location block is a no-op for every dictionary, image descriptor and
configuration (in particular, enabling it with no GPS directory renders
nothing and raises nothing). -/
theorem c9_location_noop :
    ∀ (d : ExifDictionary) (image : Option ImageDescriptor) (t m : Nat) (tech b1 b2 : Bool),
      _format_exif_info d ⟨t, m, tech, b1⟩ image = _format_exif_info d ⟨t, m, tech, b2⟩ image := by
  intro d image t m tech b1 b2
  rfl

/-- Claim C10: for every input string, configuration and outcome of the
acquisition and extraction steps, the tool returns the `try`-body's
string when it succeeds, and an error message starting with `❌` when
any internal step fails — no exception escapes `extract_exif`. -/
theorem c10_extract_exif_never_raises :
    ∀ (image_input : String) (config : ExifConfig)
      (urlImage b64Image : Except PyExn ImageDescriptor) (b64Len : Except PyExn Nat)
      (pilExif : ImageDescriptor → Except PyExn ExifDictionary),
      match extract_exif_body image_input config urlImage b64Image b64Len pilExif with
      | .ok s => extract_exif image_input config urlImage b64Image b64Len pilExif = s
      | .error _ =>
          strLeads (extract_exif image_input config urlImage b64Image b64Len pilExif) "❌"
            = true := by
  intro i c u b l p
  cases h : extract_exif_body i c u b l p with
  | ok s =>
      simp only [extract_exif, h]
      rfl
  | error e =>
      cases e with
      | valueError m =>
          obtain ⟨md⟩ := m
          simp only [extract_exif, h]
          rfl
      | other m =>
          obtain ⟨md⟩ := m
          simp only [extract_exif, h]
          rfl

end ExifMCP
